import Mathlib

/-!
# Verification of the SCF solver (`qm_2019_sss_6/scf.py`)

Shallow embedding of the `scf` class.  Matrices are real-valued dense arrays in
the source; we embed them as `Matrix (Fin n) (Fin n) ℚ`, modelling exact
floating-point values as rationals.  `n` is the orbital dimension, `natom` the
atom dimension of the interaction matrix.

Two pieces of code used by `scf.py` are not part of the repository sources:

* `np.linalg.eigh` (the dense symmetric eigensolver of the external
  linear-algebra library).  It is modelled as an explicit function parameter
  `eigh : Mat n → Mat n` returning the orbital (eigenvector) matrix; the
  eigenvalue array returned by numpy is discarded by the source, so it is not
  modelled.  Contract assumptions (orthonormal columns, ascending eigenvalue
  order) appear as hypotheses where a theorem needs them.
* the C++ extension module `fock_fast` (imported as `ff`), whose
  `fast_fock_matrix` the class wraps.  It is modelled from the spec below.

`np.linalg.norm` of a matrix is the Frobenius norm, a square root.  Because ℚ
has no square root, the convergence test `norm(A) < tol` is embedded as
`frobSq A < tol ^ 2`, which is equivalent for the positive tolerances the
source uses (`sqrt x < t ↔ x < t ^ 2` for `t > 0`).
-/

/-- Square rational matrices, the embedding of the dense `n x n` float arrays. -/
abbrev Mat (n : ℕ) : Type := Matrix (Fin n) (Fin n) ℚ

/-- The chi tensor: an `n x n x natom` array. -/
abbrev Chi (n natom : ℕ) : Type := Fin n → Fin n → Fin natom → ℚ

/-- Sum of squares of the entries; `np.linalg.norm` is its square root. -/
def frobSq {n : ℕ} (A : Mat n) : ℚ := ∑ p, ∑ q, A p q ^ 2

/-- The occupied-orbital count of `calculate_density_matrix`
(src lines 109-110): `(self.ionic_charge // 2) * np.size(fock_matrix, 0)
// self.orbitals_per_atom`, with Python floor division (`Int.fdiv`)
evaluated left to right. -/
def num_occ (ionic_charge : ℤ) (n : ℕ) (orbitals_per_atom : ℤ) : ℤ :=
  Int.fdiv (Int.fdiv ionic_charge 2 * (n : ℤ)) orbitals_per_atom

/-- Number of columns selected by the numpy slice `A[:, :k]` on an `n`-column
array: `min k n` for `k ≥ 0`, and `n + k` clamped at `0` for negative `k`
(Python wrap-around indexing). -/
def colSliceLen (k : ℤ) (n : ℕ) : ℕ :=
  if k < 0 then ((n : ℤ) + k).toNat else min k.toNat n

/-- The Coulomb-type contraction `np.einsum('pqt,rsu,tu,rs', chi, chi, M, D)`
of `calculate_fock_matrix` (implicit einsum output indices `pq`). -/
def coulomb_term {n natom : ℕ} (chi : Chi n natom)
    (M : Matrix (Fin natom) (Fin natom) ℚ) (D : Mat n) : Mat n :=
  fun p q => ∑ r, ∑ s, ∑ t, ∑ u, chi p q t * chi r s u * M t u * D r s

/-- The exchange-type contraction `np.einsum('rqt,psu,tu,rs', chi, chi, M, D)`
of `calculate_fock_matrix` (implicit einsum output indices `pq`). -/
def exchange_term {n natom : ℕ} (chi : Chi n natom)
    (M : Matrix (Fin natom) (Fin natom) ℚ) (D : Mat n) : Mat n :=
  fun p q => ∑ r, ∑ s, ∑ t, ∑ u, chi r q t * chi p s u * M t u * D r s

/-- The hard-coded atomic dipole length `2.781629275106456` of
`fast_fock_matrix` (src line 133), as an exact decimal rational. -/
def dipole : ℚ := 2781629275106456 / 1000000000000000

/-- Modelled from the spec: the external accelerated builder
`fock_fast.fast_fock_matrix` (a C++ extension module of this repository that
is not present under `src/`).  Per the collaborator contract it is "required
to be numerically equivalent to the reference tensor-contraction formula for
all valid inputs", i.e. to `H + 2 * Coulomb(chi, M, D) - Exchange(chi, M, D)`
for the consistently chosen chi tensor; we model it as exactly that formula,
taking the consistent chi tensor as an explicit parameter.  The dipole
constant parameterizes the integral approximation underlying chi and has no
further role in the contract. -/
def ff_fast_fock_matrix {n natom : ℕ} (chi : Chi n natom)
    (hamiltonian_matrix : Mat n) (interaction_matrix : Matrix (Fin natom) (Fin natom) ℚ)
    (density_matrix : Mat n) (dipole_const : ℚ) : Mat n :=
  fun p q => hamiltonian_matrix p q
    + 2 * coulomb_term chi interaction_matrix density_matrix p q
    - exchange_term chi interaction_matrix density_matrix p q

/-- The solver state: the fields stored on `self` by `__init__` (src lines
27-34) plus the ones created later by `initialize` and `kernel`
(`fock_matrix`, `energy_scf`, `total_energy`), which are `Option`-valued
because they do not exist before those methods run. -/
structure SCF (n natom : ℕ) where
  hamiltonian_matrix : Mat n
  interaction_matrix : Matrix (Fin natom) (Fin natom) ℚ
  density_matrix : Mat n
  chi_tensor : Chi n natom
  energy_ion : ℚ
  ionic_charge : ℤ
  converged : Bool
  orbitals_per_atom : ℤ
  fock_matrix : Option (Mat n)
  energy_scf : Option ℚ
  total_energy : Option ℚ

/-- `__init__` (src lines 7-34): stores the seven parameters and sets
`converged = False`; the other three attributes do not exist yet. -/
def scf_init {n natom : ℕ} (hamiltonian_matrix : Mat n)
    (interaction_matrix : Matrix (Fin natom) (Fin natom) ℚ)
    (density_matrix : Mat n) (chi_tensor : Chi n natom)
    (energy_ion : ℚ) (ionic_charge : ℤ) (orbitals_per_atom : ℤ) : SCF n natom :=
  { hamiltonian_matrix := hamiltonian_matrix
    interaction_matrix := interaction_matrix
    density_matrix := density_matrix
    chi_tensor := chi_tensor
    energy_ion := energy_ion
    ionic_charge := ionic_charge
    converged := false
    orbitals_per_atom := orbitals_per_atom
    fock_matrix := none
    energy_scf := none
    total_energy := none }

/-- `calculate_fock_matrix` (src lines 136-164).  Note that the body reads
only the `self.*` fields: the four explicit arguments are accepted but never
used. -/
def calculate_fock_matrix {n natom : ℕ} (s : SCF n natom)
    (hamiltonian_matrix : Mat n) (interaction_matrix : Matrix (Fin natom) (Fin natom) ℚ)
    (density_matrix : Mat n) (chi_tensor : Chi n natom) : Mat n :=
  fun p q => s.hamiltonian_matrix p q
    + 2 * coulomb_term s.chi_tensor s.interaction_matrix s.density_matrix p q
    - exchange_term s.chi_tensor s.interaction_matrix s.density_matrix p q

/-- `fast_fock_matrix` (src lines 116-134): wraps the external module call
`ff.fast_fock_matrix(hamiltonian_matrix, interaction_matrix, density_matrix,
dipole)`, with the stored `chi_tensor` as the consistently chosen chi of the
modelled collaborator. -/
def fast_fock_matrix {n natom : ℕ} (s : SCF n natom)
    (hamiltonian_matrix : Mat n) (interaction_matrix : Matrix (Fin natom) (Fin natom) ℚ)
    (density_matrix : Mat n) : Mat n :=
  ff_fast_fock_matrix s.chi_tensor hamiltonian_matrix interaction_matrix
    density_matrix dipole

/-- `calculate_density_matrix` (src lines 98-114): computes `num_occ`,
diagonalizes via the external `eigh`, keeps the first `num_occ` columns of
the orbital matrix as `occupied_matrix` and returns
`occupied_matrix @ occupied_matrix.T`, i.e.
`D p q = Σ_{j < num_occ} O p j * O q j`. -/
def calculate_density_matrix {n natom : ℕ} (s : SCF n natom)
    (eigh : Mat n → Mat n) (fock_matrix : Mat n) : Mat n :=
  let occ := colSliceLen (num_occ s.ionic_charge n s.orbitals_per_atom) n
  let orbital_matrix := eigh fock_matrix
  fun p q => ∑ j : Fin n,
    if (j : ℕ) < occ then orbital_matrix p j * orbital_matrix q j else 0

/-- `calculate_energy_scf` (src lines 76-96):
`np.einsum('pq,pq', hamiltonian_matrix + fock_matrix, density_matrix)`. -/
def calculate_energy_scf {n natom : ℕ} (_s : SCF n natom)
    (hamiltonian_matrix fock_matrix density_matrix : Mat n) : ℚ :=
  ∑ p, ∑ q, (hamiltonian_matrix p q + fock_matrix p q) * density_matrix p q

/-- Outcome of the `for` loop of `scf_cycle`: the `(fock_matrix,
density_matrix)` pair computed by each executed iteration in execution order
(`trace`), whether the convergence branch returned (`didConverge`), and
whether the fall-through warning `print` ran (`warned`). -/
structure LoopOut (n : ℕ) where
  trace : List (Mat n × Mat n)
  didConverge : Bool
  warned : Bool

/-- The `for iteration in range(max_scf_iterations)` loop of `scf_cycle`
(src lines 60-73), with the remaining iteration count as fuel and the local
`old_density_matrix` threaded through.  Each iteration computes
`fock_matrix = self.fast_fock_matrix(self.hamiltonian_matrix,
self.interaction_matrix, self.density_matrix)` — the `self.density_matrix`
field, which the loop never reassigns — then
`density_matrix = self.calculate_density_matrix(fock_matrix)` (a local), and
either returns on convergence or mixes `old_density_matrix`. -/
def scf_loop {n natom : ℕ} (s : SCF n natom) (eigh : Mat n → Mat n)
    (mixing_fraction convergence_tolerance : ℚ) :
    ℕ → Mat n → LoopOut n
  | 0, _ => { trace := [], didConverge := false, warned := true }
  | fuel + 1, old_density_matrix =>
      let fock_matrix := fast_fock_matrix s s.hamiltonian_matrix
        s.interaction_matrix s.density_matrix
      let density_matrix := calculate_density_matrix s eigh fock_matrix
      if frobSq (old_density_matrix - density_matrix) < convergence_tolerance ^ 2 then
        { trace := [(fock_matrix, density_matrix)], didConverge := true, warned := false }
      else
        let rest := scf_loop s eigh mixing_fraction convergence_tolerance fuel
          (mixing_fraction • density_matrix
            + (1 - mixing_fraction) • old_density_matrix)
        { trace := (fock_matrix, density_matrix) :: rest.trace
          didConverge := rest.didConverge
          warned := rest.warned }

/-- `scf_cycle` (src lines 36-74).  Returns the updated solver state (only
`converged` can change: it is set to `True` in the convergence branch and
never written otherwise), the returned `(density_matrix, fock_matrix)` pair —
`none` models the `UnboundLocalError` raised by the final
`return density_matrix, fock_matrix` when the loop body never executed — and
the warning flag. -/
def scf_cycle {n natom : ℕ} (s : SCF n natom) (eigh : Mat n → Mat n)
    (max_scf_iterations : ℕ) (mixing_fraction convergence_tolerance : ℚ) :
    SCF n natom × Option (Mat n × Mat n) × Bool :=
  let out := scf_loop s eigh mixing_fraction convergence_tolerance
    max_scf_iterations s.density_matrix
  ({ s with converged := s.converged || out.didConverge },
    (out.trace.getLast?).map (fun FD => (FD.2, FD.1)),
    out.warned)

/-- `initialize` (src lines 166-172): `self.fock_matrix =
self.fast_fock_matrix(self.hamiltonian_matrix, self.interaction_matrix,
self.density_matrix)`, then `self.density_matrix =
self.calculate_density_matrix(self.fock_matrix)`. -/
def initialize_scf {n natom : ℕ} (s : SCF n natom) (eigh : Mat n → Mat n) :
    SCF n natom :=
  let fock := fast_fock_matrix s s.hamiltonian_matrix s.interaction_matrix
    s.density_matrix
  let s1 := { s with fock_matrix := some fock }
  { s1 with density_matrix := calculate_density_matrix s1 eigh fock }

/-- `kernel` (src lines 174-186): `initialize()`, then `scf_cycle()` with its
default arguments, storing the returned pair into `self.density_matrix` and
`self.fock_matrix`, then `self.energy_scf =
self.calculate_energy_scf(self.hamiltonian_matrix, self.fock_matrix,
self.density_matrix)` and `self.total_energy = self.energy_ion +
self.energy_scf`, returning `self.total_energy`.  The result carries the
final object state together with the returned total energy. -/
def kernel {n natom : ℕ} (s : SCF n natom) (eigh : Mat n → Mat n) :
    Option (SCF n natom × ℚ) :=
  let s1 := initialize_scf s eigh
  let r := scf_cycle s1 eigh 100 (1 / 4) (1 / 10000)
  (r.2.1).map (fun DF =>
    let s2 := { r.1 with density_matrix := DF.1, fock_matrix := some DF.2 }
    let e := calculate_energy_scf s2 s2.hamiltonian_matrix DF.2 DF.1
    ({ s2 with energy_scf := some e, total_energy := some (s2.energy_ion + e) },
      s2.energy_ion + e))

/-- A concrete one-orbital, one-atom solver instance used to evaluate the
theorems: H = [[0]], M = [[1]], D0 = [[5]], chi = 1, E_ion = 7, Q = 2, K = 1.
With these parameters the per-iteration density rebuild returns [[1]], far
from D0, so the default tolerance is not met on the first iteration. -/
def exS : SCF 1 1 :=
  scf_init (fun _ _ => 0) (fun _ _ => 1) (fun _ _ => 5) (fun _ _ _ => 1) 7 2 1

/-- The same system started at the density D0 = [[1]] that the rebuild
reproduces, so the first iteration converges. -/
def exSc : SCF 1 1 :=
  scf_init (fun _ _ => 0) (fun _ _ => 1) (fun _ _ => 1) (fun _ _ _ => 1) 7 2 1

/-- A concrete stand-in for the external eigensolver on 1-dimensional
matrices: the only normalized eigenbasis of a 1 x 1 symmetric matrix is
[[1]], which this returns for every input. -/
def exEigh : Mat 1 → Mat 1 := fun _ => fun _ _ => 1

/-- The constant 1 x 1 matrix with entry `c`, for concrete evaluations. -/
def cmat (c : ℚ) : Mat 1 := fun _ _ => c

lemma cmat_ne {a b : ℚ} (h : a ≠ b) : cmat a ≠ cmat b :=
  fun he => h (congrFun (congrFun he 0) 0)

lemma sub_cmat (a b : ℚ) : cmat a - cmat b = cmat (a - b) := rfl

lemma mix_cmat (m a b : ℚ) :
    m • cmat a + (1 - m) • cmat b = cmat (m * a + (1 - m) * b) := rfl

lemma frobSq_cmat (a : ℚ) : frobSq (cmat a) = a ^ 2 := by
  simp [frobSq, cmat, Fin.sum_univ_one]

lemma exS_density_eq : exS.density_matrix = cmat 5 := rfl

lemma exSc_density_eq : exSc.density_matrix = cmat 1 := rfl

lemma fock_ex_eval (s : SCF 1 1) (hH : s.hamiltonian_matrix = cmat 0)
    (hM : s.interaction_matrix = fun _ _ => 1)
    (hchi : s.chi_tensor = fun _ _ _ => 1) (D : Mat 1) :
    fast_fock_matrix s s.hamiltonian_matrix s.interaction_matrix D =
      cmat (D 0 0) := by
  funext p q
  simp [fast_fock_matrix, ff_fast_fock_matrix, coulomb_term, exchange_term,
    hH, hM, hchi, Fin.sum_univ_one, cmat]
  ring

lemma occ_ex : colSliceLen (num_occ 2 1 1) 1 = 1 := by decide

lemma density_ex_eval (s : SCF 1 1) (hq : s.ionic_charge = 2)
    (hk : s.orbitals_per_atom = 1) (F : Mat 1) :
    calculate_density_matrix s exEigh F = cmat 1 := by
  funext p q
  simp [calculate_density_matrix, exEigh, hq, hk, occ_ex, Fin.sum_univ_one, cmat]

lemma exS_fock_eq :
    fast_fock_matrix exS exS.hamiltonian_matrix exS.interaction_matrix
      exS.density_matrix = cmat 5 := by
  rw [fock_ex_eval exS rfl rfl rfl]
  rfl

lemma exS_density_any (F : Mat 1) :
    calculate_density_matrix exS exEigh F = cmat 1 :=
  density_ex_eval exS rfl rfl F

lemma exSc_fock_eq :
    fast_fock_matrix exSc exSc.hamiltonian_matrix exSc.interaction_matrix
      exSc.density_matrix = cmat 1 := by
  rw [fock_ex_eval exSc rfl rfl rfl]
  rfl

lemma exSc_density_any (F : Mat 1) :
    calculate_density_matrix exSc exEigh F = cmat 1 :=
  density_ex_eval exSc rfl rfl F

lemma exS_residual_far (oldD : Mat 1) (a : ℚ) (hD : oldD = cmat a)
    (ha : 1 < (a - 1) ^ 2) :
    ¬ frobSq (oldD - cmat 1) < ((1 : ℚ) / 10000) ^ 2 := by
  rw [hD, sub_cmat, frobSq_cmat]
  intro hlt
  nlinarith

lemma exS_loop_step (k fuel : ℕ) (hk : k = fuel + 1) (oldD : Mat 1)
    (h : ¬ frobSq (oldD - cmat 1) < ((1 : ℚ) / 10000) ^ 2) :
    scf_loop exS exEigh (1 / 4) (1 / 10000) k oldD =
      { trace := (cmat 5, cmat 1) ::
          (scf_loop exS exEigh (1 / 4) (1 / 10000) fuel
            ((1 / 4 : ℚ) • cmat 1 + (1 - 1 / 4 : ℚ) • oldD)).trace
        didConverge := (scf_loop exS exEigh (1 / 4) (1 / 10000) fuel
            ((1 / 4 : ℚ) • cmat 1 + (1 - 1 / 4 : ℚ) • oldD)).didConverge
        warned := (scf_loop exS exEigh (1 / 4) (1 / 10000) fuel
            ((1 / 4 : ℚ) • cmat 1 + (1 - 1 / 4 : ℚ) • oldD)).warned } := by
  subst hk
  simp only [scf_loop, exS_fock_eq, exS_density_any]
  rw [if_neg h]

lemma exS_loop1 :
    scf_loop exS exEigh (1 / 4) (1 / 10000) 1 exS.density_matrix =
      { trace := [(cmat 5, cmat 1)], didConverge := false, warned := true } := by
  rw [exS_loop_step 1 0 rfl _ (exS_residual_far _ 5 exS_density_eq (by norm_num))]
  simp [scf_loop]

lemma exS_loop2 :
    scf_loop exS exEigh (1 / 4) (1 / 10000) 2 exS.density_matrix =
      { trace := [(cmat 5, cmat 1), (cmat 5, cmat 1)]
        didConverge := false
        warned := true } := by
  rw [exS_loop_step 2 1 rfl _ (exS_residual_far _ 5 exS_density_eq (by norm_num)),
    exS_loop_step 1 0 rfl _ (exS_residual_far _ 4
      (by rw [exS_density_eq, mix_cmat]; norm_num) (by norm_num))]
  simp [scf_loop]

lemma scf_loop_succ_trace_ne_nil {n natom : ℕ} (s : SCF n natom)
    (eigh : Mat n → Mat n) (mix tol : ℚ) (fuel : ℕ) (oldD : Mat n) :
    (scf_loop s eigh mix tol (fuel + 1) oldD).trace ≠ [] := by
  simp only [scf_loop]
  split <;> simp

lemma scf_loop_not_converged_warned {n natom : ℕ} (s : SCF n natom)
    (eigh : Mat n → Mat n) (mix tol : ℚ) :
    ∀ (fuel : ℕ) (oldD : Mat n),
      (scf_loop s eigh mix tol fuel oldD).didConverge = false →
      (scf_loop s eigh mix tol fuel oldD).warned = true := by
  intro fuel
  induction fuel with
  | zero => intro oldD _; rfl
  | succ fuel ih =>
      intro oldD h
      simp only [scf_loop] at h ⊢
      split at h
      · simp at h
      · rename_i hc
        rw [if_neg hc]
        exact ih _ h

/-- Claim C3: `calculate_density_matrix` computes the occupied-orbital count
as `num_occ = ((Q // 2) * n) // K` with integer floor division evaluated left
to right in exactly that order; for non-divisible inputs such as `Q = 3`
(with `n = 4`, `K = 2`) this differs from the reordering `(Q // (2*K)) * n`,
and for `Q = 4`, `K = 2`, `n = 4` the result is `4`. -/
theorem num_occ_division_order :
    (∀ (Q : ℤ) (n : ℕ) (K : ℤ),
      num_occ Q n K = Int.fdiv (Int.fdiv Q 2 * (n : ℤ)) K) ∧
    num_occ 3 4 2 ≠ Int.fdiv 3 (2 * 2) * 4 ∧
    num_occ 4 4 2 = 4 :=
  ⟨fun _ _ _ => rfl, by decide, by decide⟩

/-- Claim C8: the result of `calculate_fock_matrix` does not depend on its
explicit `hamiltonian_matrix`, `interaction_matrix`, `density_matrix` or
`chi_tensor` arguments — any two argument tuples give the same matrix, namely
`H_self + 2 * Coulomb(chi_self, M_self, D_self) - Exchange(chi_self, M_self,
D_self)` computed from the constructor-stored fields. -/
theorem calculate_fock_matrix_ignores_arguments {n natom : ℕ} (s : SCF n natom)
    (h1 h2 d1 d2 : Mat n) (m1 m2 : Matrix (Fin natom) (Fin natom) ℚ)
    (c1 c2 : Chi n natom) :
    calculate_fock_matrix s h1 m1 d1 c1 = calculate_fock_matrix s h2 m2 d2 c2 ∧
    calculate_fock_matrix s h1 m1 d1 c1 = fun p q =>
      s.hamiltonian_matrix p q
        + 2 * coulomb_term s.chi_tensor s.interaction_matrix s.density_matrix p q
        - exchange_term s.chi_tensor s.interaction_matrix s.density_matrix p q :=
  ⟨rfl, rfl⟩

/-- Claim C2: with the chi tensor chosen consistently — the solver's stored
fields agreeing with the passed arguments, which is how every call site in
the class invokes the two paths — the reference tensor-contraction path
`calculate_fock_matrix` and the accelerated path `fast_fock_matrix` return
the same Fock matrix (exactly, in the rational embedding). -/
theorem fock_paths_agree {n natom : ℕ} (s : SCF n natom)
    (H D : Mat n) (M : Matrix (Fin natom) (Fin natom) ℚ) (chi : Chi n natom)
    (hH : s.hamiltonian_matrix = H) (hM : s.interaction_matrix = M)
    (hD : s.density_matrix = D) (hchi : s.chi_tensor = chi) :
    calculate_fock_matrix s H M D chi = fast_fock_matrix s H M D := by
  subst hH; subst hM; subst hD; subst hchi
  rfl

/-- Witness for C2 at the concrete solver `exS`. -/
theorem fock_paths_agree_witness :
    calculate_fock_matrix exS exS.hamiltonian_matrix exS.interaction_matrix
        exS.density_matrix exS.chi_tensor =
      fast_fock_matrix exS exS.hamiltonian_matrix exS.interaction_matrix
        exS.density_matrix :=
  fock_paths_agree exS _ _ _ _ rfl rfl rfl rfl

/-- Claim C9: `scf_cycle` returns a well-defined `(density, fock)` pair only
when `max_scf_iterations ≥ 1`: with `max_scf_iterations = 0` the loop body
never executes and the final `return` reads unbound locals (modelled as
`none`), while with any positive iteration count a pair is returned. -/
theorem scf_cycle_zero_iterations_error :
    (∀ (n natom : ℕ) (s : SCF n natom) (eigh : Mat n → Mat n) (mix tol : ℚ),
      (scf_cycle s eigh 0 mix tol).2.1 = none) ∧
    (∀ (n natom : ℕ) (s : SCF n natom) (eigh : Mat n → Mat n) (mix tol : ℚ)
      (k : ℕ), ((scf_cycle s eigh (k + 1) mix tol).2.1).isSome = true) := by
  constructor
  · intro n natom s eigh mix tol
    rfl
  · intro n natom s eigh mix tol k
    have h := scf_loop_succ_trace_ne_nil s eigh mix tol k s.density_matrix
    obtain ⟨x, hx⟩ : ∃ x,
        (scf_loop s eigh mix tol (k + 1) s.density_matrix).trace.getLast? = some x := by
      rw [← Option.isSome_iff_exists, List.getLast?_isSome]
      exact h
    simp [scf_cycle, hx]

/-- Claim C10: `scf_cycle` mutates no solver field except the `converged`
flag: `hamiltonian_matrix`, `interaction_matrix`, `chi_tensor`, `energy_ion`,
`ionic_charge`, `orbitals_per_atom`, `density_matrix` and `fock_matrix` are
unchanged after the call, and the flag only moves from `False` to `True`
when the run converges (`converged_after = converged_before OR
run_converged`). -/
theorem scf_cycle_frame {n natom : ℕ} (s : SCF n natom) (eigh : Mat n → Mat n)
    (m : ℕ) (mix tol : ℚ) :
    (scf_cycle s eigh m mix tol).1.hamiltonian_matrix = s.hamiltonian_matrix ∧
    (scf_cycle s eigh m mix tol).1.interaction_matrix = s.interaction_matrix ∧
    (scf_cycle s eigh m mix tol).1.chi_tensor = s.chi_tensor ∧
    (scf_cycle s eigh m mix tol).1.energy_ion = s.energy_ion ∧
    (scf_cycle s eigh m mix tol).1.ionic_charge = s.ionic_charge ∧
    (scf_cycle s eigh m mix tol).1.orbitals_per_atom = s.orbitals_per_atom ∧
    (scf_cycle s eigh m mix tol).1.density_matrix = s.density_matrix ∧
    (scf_cycle s eigh m mix tol).1.fock_matrix = s.fock_matrix ∧
    (scf_cycle s eigh m mix tol).1.converged =
      (s.converged || (scf_loop s eigh mix tol m s.density_matrix).didConverge) :=
  ⟨rfl, rfl, rfl, rfl, rfl, rfl, rfl, rfl, rfl⟩

lemma scf_loop_converged_step {n natom : ℕ} (s : SCF n natom)
    (eigh : Mat n → Mat n) (mix tol : ℚ) (fuel : ℕ) (oldD : Mat n)
    (h : frobSq (oldD - calculate_density_matrix s eigh
        (fast_fock_matrix s s.hamiltonian_matrix s.interaction_matrix
          s.density_matrix)) < tol ^ 2) :
    scf_loop s eigh mix tol (fuel + 1) oldD =
      { trace := [(fast_fock_matrix s s.hamiltonian_matrix s.interaction_matrix
            s.density_matrix,
          calculate_density_matrix s eigh (fast_fock_matrix s
            s.hamiltonian_matrix s.interaction_matrix s.density_matrix))]
        didConverge := true
        warned := false } := by
  simp only [scf_loop]
  rw [if_pos h]

lemma scf_cycle_succ_result_isSome {n natom : ℕ} (s : SCF n natom)
    (eigh : Mat n → Mat n) (mix tol : ℚ) (k : ℕ) :
    ((scf_cycle s eigh (k + 1) mix tol).2.1).isSome = true := by
  have h := scf_loop_succ_trace_ne_nil s eigh mix tol k s.density_matrix
  obtain ⟨x, hx⟩ : ∃ x,
      (scf_loop s eigh mix tol (k + 1) s.density_matrix).trace.getLast? = some x := by
    rw [← Option.isSome_iff_exists, List.getLast?_isSome]
    exact h
  simp [scf_cycle, hx]

/-- Claim C4: on the first iteration whose residual (embedded as the squared
Frobenius norm of old density minus newly computed density against the
squared tolerance) is strictly below the tolerance, `scf_cycle` sets the
converged flag to `True` and returns the pair (new density, Fock matrix)
immediately: the loop records exactly that one final iteration and no mixing
update runs on the converged step.  The first conjunct states this for the
loop entered at any `old_density_matrix`, the second for `scf_cycle` itself
(first iteration, where `old_density_matrix` is the stored density). -/
theorem scf_converged_immediate_return {n natom : ℕ} (s : SCF n natom)
    (eigh : Mat n → Mat n) (mix tol : ℚ) :
    (∀ (fuel : ℕ) (oldD : Mat n),
      frobSq (oldD - calculate_density_matrix s eigh
          (fast_fock_matrix s s.hamiltonian_matrix s.interaction_matrix
            s.density_matrix)) < tol ^ 2 →
      (scf_loop s eigh mix tol (fuel + 1) oldD).trace =
          [(fast_fock_matrix s s.hamiltonian_matrix s.interaction_matrix
              s.density_matrix,
            calculate_density_matrix s eigh (fast_fock_matrix s
              s.hamiltonian_matrix s.interaction_matrix s.density_matrix))] ∧
        (scf_loop s eigh mix tol (fuel + 1) oldD).didConverge = true ∧
        (scf_loop s eigh mix tol (fuel + 1) oldD).warned = false) ∧
    (∀ m : ℕ,
      frobSq (s.density_matrix - calculate_density_matrix s eigh
          (fast_fock_matrix s s.hamiltonian_matrix s.interaction_matrix
            s.density_matrix)) < tol ^ 2 →
      (scf_cycle s eigh (m + 1) mix tol).1.converged = true ∧
        (scf_cycle s eigh (m + 1) mix tol).2.1 =
          some (calculate_density_matrix s eigh (fast_fock_matrix s
              s.hamiltonian_matrix s.interaction_matrix s.density_matrix),
            fast_fock_matrix s s.hamiltonian_matrix s.interaction_matrix
              s.density_matrix) ∧
        (scf_cycle s eigh (m + 1) mix tol).2.2 = false) := by
  constructor
  · intro fuel oldD h
    rw [scf_loop_converged_step s eigh mix tol fuel oldD h]
    exact ⟨rfl, rfl, rfl⟩
  · intro m h
    have hl := scf_loop_converged_step s eigh mix tol m s.density_matrix h
    refine ⟨?_, ?_, ?_⟩ <;> simp [scf_cycle, hl]

/-- Witness for C4: the converging system `exSc` reaches the tolerance on the
first iteration and `scf_cycle` returns at once with the flag set. -/
theorem scf_converged_immediate_return_witness :
    (scf_cycle exSc exEigh 3 (1 / 4) (1 / 10000)).1.converged = true ∧
      (scf_cycle exSc exEigh 3 (1 / 4) (1 / 10000)).2.1 =
        some (calculate_density_matrix exSc exEigh (fast_fock_matrix exSc
            exSc.hamiltonian_matrix exSc.interaction_matrix exSc.density_matrix),
          fast_fock_matrix exSc exSc.hamiltonian_matrix exSc.interaction_matrix
            exSc.density_matrix) ∧
      (scf_cycle exSc exEigh 3 (1 / 4) (1 / 10000)).2.2 = false :=
  (scf_converged_immediate_return exSc exEigh (1 / 4) (1 / 10000)).2 2 (by
    rw [exSc_density_any, exSc_density_eq, sub_cmat, frobSq_cmat]
    norm_num)

/-- Claim C5: when no iteration of `scf_cycle` converges, the warning is
emitted, the last computed (density, Fock) pair is still returned (no error,
no `None`), and the converged flag is left as it was (`False` stays
`False`). -/
theorem scf_nonconvergence_warns_returns {n natom : ℕ} (s : SCF n natom)
    (eigh : Mat n → Mat n) (k : ℕ) (mix tol : ℚ)
    (hnc : (scf_loop s eigh mix tol (k + 1) s.density_matrix).didConverge = false) :
    (scf_cycle s eigh (k + 1) mix tol).2.2 = true ∧
      ((scf_cycle s eigh (k + 1) mix tol).2.1).isSome = true ∧
      (scf_cycle s eigh (k + 1) mix tol).2.1 =
        ((scf_loop s eigh mix tol (k + 1) s.density_matrix).trace.getLast?).map
          (fun FD => (FD.2, FD.1)) ∧
      (scf_cycle s eigh (k + 1) mix tol).1.converged = s.converged := by
  refine ⟨?_, scf_cycle_succ_result_isSome s eigh mix tol k, rfl, ?_⟩
  · exact scf_loop_not_converged_warned s eigh mix tol (k + 1) s.density_matrix hnc
  · show (s.converged ||
      (scf_loop s eigh mix tol (k + 1) s.density_matrix).didConverge) = s.converged
    rw [hnc, Bool.or_false]

/-- Witness for C5: `exS` with a single allowed iteration does not converge;
the warning flag is set and a pair is still returned. -/
theorem scf_nonconvergence_warns_returns_witness :
    (scf_cycle exS exEigh 1 (1 / 4) (1 / 10000)).2.2 = true ∧
      ((scf_cycle exS exEigh 1 (1 / 4) (1 / 10000)).2.1).isSome = true ∧
      (scf_cycle exS exEigh 1 (1 / 4) (1 / 10000)).2.1 =
        ((scf_loop exS exEigh (1 / 4) (1 / 10000) 1 exS.density_matrix).trace.getLast?).map
          (fun FD => (FD.2, FD.1)) ∧
      (scf_cycle exS exEigh 1 (1 / 4) (1 / 10000)).1.converged = exS.converged :=
  scf_nonconvergence_warns_returns exS exEigh 0 (1 / 4) (1 / 10000) (by
    rw [exS_loop_step (0 + 1) 0 rfl _
      (exS_residual_far _ 5 exS_density_eq (by norm_num))]
    simp [scf_loop])

/-- Counterexample to claim C1 as stated: in the run of `scf_cycle` on `exS`
(two iterations, neither converging), the Fock matrix computed at iteration 2
differs from the Fock matrix built from (H, M, D_1), where D_1 is the density
returned by `calculate_density_matrix` at iteration 1.  The loop feeds the
never-reassigned `self.density_matrix` field into every operator build, not
the previous iteration's density. -/
theorem scf_fock_feedforward_cex :
    (scf_loop exS exEigh (1 / 4) (1 / 10000) 2 exS.density_matrix).trace.length = 2 ∧
      ((scf_loop exS exEigh (1 / 4) (1 / 10000) 2 exS.density_matrix).trace[1]?).map
          Prod.fst ≠
        ((scf_loop exS exEigh (1 / 4) (1 / 10000) 2 exS.density_matrix).trace[0]?).map
          (fun FD => fast_fock_matrix exS exS.hamiltonian_matrix
            exS.interaction_matrix FD.2) := by
  rw [exS_loop2]
  refine ⟨rfl, ?_⟩
  have hf : fast_fock_matrix exS exS.hamiltonian_matrix exS.interaction_matrix
      (cmat 1) = cmat 1 := by
    rw [fock_ex_eval exS rfl rfl rfl (cmat 1)]
    rfl
  show ¬ some (cmat 5) = some (fast_fock_matrix exS exS.hamiltonian_matrix
    exS.interaction_matrix (cmat 1))
  rw [hf]
  simp only [Option.some.injEq]
  exact cmat_ne (by norm_num)

/-- Claim C1 (amended): the Fock matrix computed at every executed iteration
of `scf_cycle` equals the one built from (H, M, D_field), where D_field is
the solver's stored `density_matrix` field — which the loop never updates —
so the same Fock matrix is rebuilt each iteration; neither the un-mixed new
density of the previous iteration nor the mixed baseline is fed into any
operator build, the mixed matrix serving only as the convergence-comparison
reference. -/
theorem scf_loop_fock_constant {n natom : ℕ} (s : SCF n natom)
    (eigh : Mat n → Mat n) (mix tol : ℚ) :
    ∀ (fuel : ℕ) (oldD : Mat n) (i : ℕ) (F D : Mat n),
      (scf_loop s eigh mix tol fuel oldD).trace[i]? = some (F, D) →
      F = fast_fock_matrix s s.hamiltonian_matrix s.interaction_matrix
        s.density_matrix := by
  intro fuel
  induction fuel with
  | zero => intro oldD i F D h; simp [scf_loop] at h
  | succ fuel ih =>
      intro oldD i F D h
      simp only [scf_loop] at h
      split at h
      · cases i with
        | zero => simp at h; exact h.1.symm
        | succ j => simp at h
      · cases i with
        | zero => simp at h; exact h.1.symm
        | succ j =>
            simp only [List.getElem?_cons_succ] at h
            exact ih _ j F D h

/-- Witness for the amended C1: in the two-iteration run on `exS` the Fock
matrix recorded at iteration 2 is the constant [[5]] built from the stored
density field. -/
theorem scf_loop_fock_constant_witness :
    cmat 5 =
      fast_fock_matrix exS exS.hamiltonian_matrix exS.interaction_matrix
        exS.density_matrix :=
  scf_loop_fock_constant exS exEigh (1 / 4) (1 / 10000) 2 exS.density_matrix 1
    (cmat 5) (cmat 1) (by rw [exS_loop2]; rfl)

/-- Claim C6: for a symmetric input Fock matrix, `calculate_density_matrix`
returns `D = C * C.transpose` built from the `num_occ` lowest-eigenvalue
eigenvector columns of the external eigensolver's orbital matrix;
consequently `D` is symmetric, and — under the eigensolver contract that the
selected columns are normalized, with `0 ≤ num_occ ≤ n` — its trace equals
`num_occ` (exactly, in the rational embedding). -/
theorem calculate_density_matrix_symm_trace {n natom : ℕ} (s : SCF n natom)
    (eigh : Mat n → Mat n) (F : Mat n)
    (hF : F.transpose = F)
    (hunit : ∀ j : Fin n, (∑ p : Fin n, eigh F p j * eigh F p j) = 1)
    (h0 : 0 ≤ num_occ s.ionic_charge n s.orbitals_per_atom)
    (hn : num_occ s.ionic_charge n s.orbitals_per_atom ≤ (n : ℤ)) :
    (calculate_density_matrix s eigh F).transpose =
        calculate_density_matrix s eigh F ∧
      Matrix.trace (calculate_density_matrix s eigh F) =
        ((num_occ s.ionic_charge n s.orbitals_per_atom : ℤ) : ℚ) := by
  have hc : colSliceLen (num_occ s.ionic_charge n s.orbitals_per_atom) n =
      (num_occ s.ionic_charge n s.orbitals_per_atom).toNat := by
    unfold colSliceLen
    rw [if_neg (not_lt.2 h0)]
    exact min_eq_left (Int.toNat_le.mpr hn)
  have hcn : colSliceLen (num_occ s.ionic_charge n s.orbitals_per_atom) n ≤ n := by
    rw [hc]
    exact Int.toNat_le.mpr hn
  constructor
  · ext p q
    simp only [calculate_density_matrix, Matrix.transpose_apply]
    exact Finset.sum_congr rfl fun j _ => by rw [mul_comm]
  · have step : ∀ j : Fin n,
        (∑ p : Fin n,
          if (j : ℕ) < colSliceLen (num_occ s.ionic_charge n s.orbitals_per_atom) n
            then eigh F p j * eigh F p j else 0) =
        (if (j : ℕ) < colSliceLen (num_occ s.ionic_charge n s.orbitals_per_atom) n
          then (1 : ℚ) else 0) := by
      intro j
      by_cases hj :
        (j : ℕ) < colSliceLen (num_occ s.ionic_charge n s.orbitals_per_atom) n
      · simp only [if_pos hj, Finset.sum_ite_irrel]
        exact hunit j
      · simp [hj]
    have htr : Matrix.trace (calculate_density_matrix s eigh F) =
        ∑ p : Fin n, ∑ j : Fin n,
          if (j : ℕ) < colSliceLen (num_occ s.ionic_charge n s.orbitals_per_atom) n
            then eigh F p j * eigh F p j else 0 := by
      simp [Matrix.trace, Matrix.diag, calculate_density_matrix]
    rw [htr, Finset.sum_comm]
    rw [Finset.sum_congr rfl fun j _ => step j]
    rw [Fin.sum_univ_eq_sum_range (fun j =>
      if j < colSliceLen (num_occ s.ionic_charge n s.orbitals_per_atom) n
        then (1 : ℚ) else 0)]
    rw [Finset.sum_boole]
    have hfil : (Finset.range n).filter
        (fun j => j < colSliceLen (num_occ s.ionic_charge n s.orbitals_per_atom) n) =
        Finset.range (colSliceLen (num_occ s.ionic_charge n s.orbitals_per_atom) n) := by
      ext j
      simp only [Finset.mem_filter, Finset.mem_range]
      omega
    rw [hfil, Finset.card_range, hc]
    exact_mod_cast congrArg (fun z : ℤ => (z : ℚ)) (Int.toNat_of_nonneg h0)

/-- Witness for C6 on the concrete solver `exS` and the symmetric 1 x 1 Fock
matrix [[0]]. -/
theorem calculate_density_matrix_symm_trace_witness :
    (calculate_density_matrix exS exEigh (cmat 0)).transpose =
        calculate_density_matrix exS exEigh (cmat 0) ∧
      Matrix.trace (calculate_density_matrix exS exEigh (cmat 0)) =
        ((num_occ exS.ionic_charge 1 exS.orbitals_per_atom : ℤ) : ℚ) :=
  calculate_density_matrix_symm_trace exS exEigh (cmat 0) rfl
    (fun _ => by simp [exEigh, Fin.sum_univ_one]) (by decide) (by decide)

/-- Claim C7: `kernel` runs `initialize` then `scf_cycle` (with its default
arguments), stores the returned density and Fock matrices back into the
solver state, computes the electronic SCF energy as the full double
contraction of `(H + F)` with `D`, and returns
`total_energy = E_ion + electronic energy`. -/
theorem kernel_total_energy {n natom : ℕ} (s : SCF n natom)
    (eigh : Mat n → Mat n) (D F : Mat n)
    (h : (scf_cycle (initialize_scf s eigh) eigh 100 (1 / 4) (1 / 10000)).2.1 =
      some (D, F)) :
    ∃ s2 : SCF n natom,
      kernel s eigh = some (s2,
        s.energy_ion + ∑ p, ∑ q, (s.hamiltonian_matrix p q + F p q) * D p q) ∧
      s2.density_matrix = D ∧ s2.fock_matrix = some F := by
  simp only [kernel]
  rw [h]
  exact ⟨_, rfl, rfl, rfl⟩

/-- Witness for C7: on the converging concrete system `exSc`, `kernel`
returns `E_ion + (H + F) : D = 7 + 1 = 8` with the final matrices stored. -/
theorem kernel_total_energy_witness :
    ∃ s2 : SCF 1 1,
      kernel exSc exEigh = some (s2,
        exSc.energy_ion + ∑ p, ∑ q,
          (exSc.hamiltonian_matrix p q + cmat 1 p q) * cmat 1 p q) ∧
      s2.density_matrix = cmat 1 ∧ s2.fock_matrix = some (cmat 1) :=
  kernel_total_energy exSc exEigh (cmat 1) (cmat 1) (by
    set s1 : SCF 1 1 := initialize_scf exSc exEigh with hs1
    have hdany : ∀ G : Mat 1, calculate_density_matrix s1 exEigh G = cmat 1 :=
      fun G => density_ex_eval s1 rfl rfl G
    have h1D : s1.density_matrix = cmat 1 := hdany _
    have hf : fast_fock_matrix s1 s1.hamiltonian_matrix s1.interaction_matrix
        s1.density_matrix = cmat 1 := by
      rw [fock_ex_eval s1 rfl rfl rfl, h1D]
      rfl
    have hcv : frobSq (s1.density_matrix - calculate_density_matrix s1 exEigh
        (fast_fock_matrix s1 s1.hamiltonian_matrix s1.interaction_matrix
          s1.density_matrix)) < ((1 : ℚ) / 10000) ^ 2 := by
      rw [hdany, h1D, sub_cmat, frobSq_cmat]
      norm_num
    have hloop : scf_loop s1 exEigh (1 / 4) (1 / 10000) 100 s1.density_matrix =
        { trace := [(fast_fock_matrix s1 s1.hamiltonian_matrix
              s1.interaction_matrix s1.density_matrix,
            calculate_density_matrix s1 exEigh (fast_fock_matrix s1
              s1.hamiltonian_matrix s1.interaction_matrix s1.density_matrix))]
          didConverge := true
          warned := false } :=
      scf_loop_converged_step s1 exEigh (1 / 4) (1 / 10000) 99
        s1.density_matrix hcv
    simp only [scf_cycle]
    rw [hloop]
    show (some (calculate_density_matrix s1 exEigh (fast_fock_matrix s1
          s1.hamiltonian_matrix s1.interaction_matrix s1.density_matrix),
        fast_fock_matrix s1 s1.hamiltonian_matrix s1.interaction_matrix
          s1.density_matrix) : Option (Mat 1 × Mat 1)) = some (cmat 1, cmat 1)
    rw [hdany, hf])
